import Mathlib

/-!
Shallow embedding of the btc-telegram-bot alert engine
(src/alerts.py, src/database.py, src/market.py, src/config.py).

Machine conventions:
* prices, thresholds and percentages are rationals (`ℚ`);
* timestamps are integers counting seconds (`ℤ`); a Python
  `timedelta(seconds=k)` comparison `now - t < timedelta(seconds=k)`
  becomes `now - t < k`;
* hours of day are naturals;
* Python dict rows become structures; SQLite tables become lists of rows.
-/

namespace BtcBot

/-- Fields of `Config` (src/config.py) used by the alert engine. -/
structure Config where
  USER_BTC_POSITION : ℚ
  USER_AVG_PRICE : ℚ
  BREAKEVEN_THRESHOLD : ℚ
  CHECK_INTERVAL : ℤ
  ALERT_RETRY_INTERVAL : ℤ
  ALERT_RETRY_INTERVAL_LONG : ℤ
  MAX_ALERT_RETRIES : ℕ
  SILENT_START_HOUR : ℕ
  SILENT_END_HOUR : ℕ
  RSI_OVERSOLD : ℚ
  RSI_OVERBOUGHT : ℚ
deriving DecidableEq

/-- The default values assigned in src/config.py (USER_AVG_PRICE='115318.90',
BREAKEVEN_THRESHOLD=0.02, ALERT_RETRY_INTERVAL_LONG=900, MAX_ALERT_RETRIES=3, ...). -/
def defaultConfig : Config where
  USER_BTC_POSITION := 8282513 / 100000000
  USER_AVG_PRICE := 11531890 / 100
  BREAKEVEN_THRESHOLD := 2 / 100
  CHECK_INTERVAL := 300
  ALERT_RETRY_INTERVAL := 300
  ALERT_RETRY_INTERVAL_LONG := 900
  MAX_ALERT_RETRIES := 3
  SILENT_START_HOUR := 23
  SILENT_END_HOUR := 7
  RSI_OVERSOLD := 30
  RSI_OVERBOUGHT := 70

/-- The `type` column of the alerts table: 'price' or 'change'. -/
inductive AlertType where
  | price
  | change
deriving DecidableEq

/-- The `currency` column: 'USD' or 'BRL'. -/
inductive Currency where
  | usd
  | brl
deriving DecidableEq

/-- The `comparison` column: 'above' or 'below'. -/
inductive Comparison where
  | above
  | below
deriving DecidableEq

/-- The `status` column: 'active' or 'acknowledged'. -/
inductive AlertStatus where
  | active
  | acknowledged
deriving DecidableEq

/-- A row of the `alerts` table (src/database.py, create_tables). -/
structure Alert where
  id : ℕ
  chat_id : String
  type : AlertType
  value : ℚ
  currency : Currency
  comparison : Comparison
  status : AlertStatus
  retry_count : ℕ
  last_retry_at : Option ℤ
  acked_at : Option ℤ
  notes : Option String
deriving DecidableEq

/-- The `market_data['price']` sub-dict consumed by `_process_alert`. -/
structure PriceData where
  usd : ℚ
  brl : ℚ
  change_24h : ℚ
  volume_24h : ℚ
deriving DecidableEq

/-- A row of the `user_config` table. -/
structure UserConfig where
  chat_id : String
  timezone : String
  silent_start : ℕ
  silent_end : ℕ
  notifications_enabled : Bool
deriving DecidableEq

/-- A row of the `alert_history` table, as written by `_send_alert`. -/
structure HistoryRecord where
  alert_id : ℕ
  chat_id : String
  price_usd : ℚ
  price_brl : ℚ
  variation_24h : ℚ
  volume_24h : ℚ
deriving DecidableEq

/-- `current_price = market_data['price']['usd' if currency == 'USD' else 'brl']`
(src/alerts.py line 98). -/
def current_price (alert : Alert) (price : PriceData) : ℚ :=
  match alert.currency with
  | Currency.usd => price.usd
  | Currency.brl => price.brl

/-- The trigger decision of `AlertEngine._process_alert`
(src/alerts.py lines 100-112): `should_trigger`. -/
def should_trigger (alert : Alert) (price : PriceData) : Bool :=
  match alert.type with
  | AlertType.price =>
      match alert.comparison with
      | Comparison.above => decide (alert.value ≤ current_price alert price)
      | Comparison.below => decide (current_price alert price ≤ alert.value)
  | AlertType.change => decide (alert.value ≤ |price.change_24h|)

/-- The pure window test inside `AlertEngine._is_silent_hours`
(src/alerts.py lines 345-351): if `silent_start > silent_end` the window
wraps midnight (`hour ≥ start or hour < end`), otherwise
`start ≤ hour < end`. -/
def is_silent_window (silent_start silent_end current_hour : ℕ) : Bool :=
  if silent_start > silent_end then
    decide (current_hour ≥ silent_start) || decide (current_hour < silent_end)
  else
    decide (silent_start ≤ current_hour) && decide (current_hour < silent_end)

/-- The body of `AlertEngine._is_silent_hours` (src/alerts.py lines 328-356)
before its `except` clause.  `tzHour` stands for the effectful
`datetime.now(pytz.timezone(user_config['timezone'])).hour`, which raises
(`Except.error`) on a malformed timezone; `ucfg` is the result of
`db.get_user_config`, which can itself fail.  Returns `true` immediately
when `notifications_enabled` is false. -/
def is_silent_hours_body (tzHour : String → Except String ℕ)
    (ucfg : Except String UserConfig) : Except String Bool :=
  match ucfg with
  | Except.error e => Except.error e
  | Except.ok user_config =>
      if user_config.notifications_enabled = false then
        Except.ok true
      else
        match tzHour user_config.timezone with
        | Except.error e => Except.error e
        | Except.ok h =>
            Except.ok (is_silent_window user_config.silent_start
              user_config.silent_end h)

/-- `AlertEngine._is_silent_hours` with its `except Exception: return False`
clause (src/alerts.py lines 358-360): any error is swallowed and the owner
is treated as not silent. -/
def is_silent_hours (tzHour : String → Except String ℕ)
    (ucfg : Except String UserConfig) : Bool :=
  match is_silent_hours_body tzHour ucfg with
  | Except.ok b => b
  | Except.error _ => false

/-- The retry-exhaustion check of `AlertEngine._send_alert`
(src/alerts.py lines 128-135): suppress iff `retry_count ≥ MAX_ALERT_RETRIES`
and `last_retry_at` is set and `now - last_retry_at < ALERT_RETRY_INTERVAL_LONG`. -/
def retry_suppressed (cfg : Config) (now : ℤ) (alert : Alert) : Bool :=
  if alert.retry_count ≥ cfg.MAX_ALERT_RETRIES then
    match alert.last_retry_at with
    | some last_retry_time =>
        decide (now - last_retry_time < cfg.ALERT_RETRY_INTERVAL_LONG)
    | none => false
  else false

/-- `Database.update_alert_retry` (src/database.py lines 133-142):
`retry_count = retry_count + 1, last_retry_at = CURRENT_TIMESTAMP`;
no other column changes. -/
def update_alert_retry (now : ℤ) (alert : Alert) : Alert :=
  { alert with retry_count := alert.retry_count + 1, last_retry_at := some now }

/-- Result of one `_send_alert` / `_process_alert` call: the alert row after
the call, the history table after the call, and whether a message was sent. -/
structure SendResult where
  alert : Alert
  history : List HistoryRecord
  delivered : Bool
deriving DecidableEq

/-- `AlertEngine._send_alert` (src/alerts.py lines 120-162).  `silent` is the
value of `await self._is_silent_hours(alert['chat_id'])`.  On delivery it runs
`update_alert_retry` and appends an `alert_history` row. -/
def send_alert (cfg : Config) (silent : Bool) (now : ℤ) (alert : Alert)
    (price : PriceData) (history : List HistoryRecord) : SendResult :=
  if silent then
    ⟨alert, history, false⟩
  else if retry_suppressed cfg now alert then
    ⟨alert, history, false⟩
  else
    ⟨update_alert_retry now alert,
     history ++ [⟨alert.id, alert.chat_id, price.usd, price.brl,
                 price.change_24h, price.volume_24h⟩],
     true⟩

/-- `AlertEngine._process_alert` (src/alerts.py lines 90-118): evaluate the
trigger predicate and call `_send_alert` when it holds. -/
def process_alert (cfg : Config) (silent : Bool) (now : ℤ) (alert : Alert)
    (price : PriceData) (history : List HistoryRecord) : SendResult :=
  if should_trigger alert price then
    send_alert cfg silent now alert price history
  else
    ⟨alert, history, false⟩

/-- `MarketDataCollector.check_breakeven_proximity` (src/market.py lines
272-285): `diff_percent = ((current_price - breakeven) / breakeven) * 100`,
`is_near = abs(diff_percent) <= BREAKEVEN_THRESHOLD * 100`.  The pair is
returned as (is_near, diff_percent). -/
def check_breakeven_proximity (cfg : Config) (price : ℚ) : Bool × ℚ :=
  let breakeven := cfg.USER_AVG_PRICE
  let diff_percent := ((price - breakeven) / breakeven) * 100
  let is_near := decide (|diff_percent| ≤ cfg.BREAKEVEN_THRESHOLD * 100)
  (is_near, diff_percent)

/-- A row of the `market_cache` table (key is the PRIMARY KEY). -/
structure CacheEntry where
  key : String
  value : String
  updated_at : ℤ
deriving DecidableEq

/-- `Database.get_cache` (src/database.py lines 246-255): returns the value
when the row exists and `updated_at > now - ttl_minutes minutes`.  The Python
signature has default `ttl_minutes=5`; call sites that omit the argument pass
5 here. -/
def get_cache (cache : List CacheEntry) (now : ℤ) (key : String)
    (ttl_minutes : ℤ) : Option String :=
  match cache.find? (fun e => e.key = key) with
  | some e => if now - 60 * ttl_minutes < e.updated_at then some e.value else none
  | none => none

/-- `Database.set_cache` (src/database.py lines 257-264):
`INSERT OR REPLACE` with `updated_at = CURRENT_TIMESTAMP`. -/
def set_cache (cache : List CacheEntry) (now : ℤ) (key value : String) :
    List CacheEntry :=
  ⟨key, value, now⟩ :: cache.filter (fun e => e.key ≠ key)

/-- Cache table plus whether a message went out in this step. -/
structure MarkerStep where
  cache : List CacheEntry
  delivered : Bool
deriving DecidableEq

/-- `AlertEngine._send_breakeven_alert` (src/alerts.py lines 270-298): reads
`get_cache('breakeven_alert_sent')` — the `ttl_minutes` argument is omitted
at the call site, so the default 5 applies — and returns early when a fresh
marker exists; otherwise it sends and runs
`set_cache('breakeven_alert_sent', '1')`. -/
def send_breakeven_alert (cache : List CacheEntry) (now : ℤ) : MarkerStep :=
  match get_cache cache now "breakeven_alert_sent" 5 with
  | some _ => ⟨cache, false⟩
  | none => ⟨set_cache cache now "breakeven_alert_sent" "1", true⟩

/-- The breakeven branch of `AlertEngine._check_special_conditions`
(src/alerts.py lines 196-202): compute proximity and send the breakeven
alert when `is_near`. -/
def check_breakeven_condition (cfg : Config) (cache : List CacheEntry)
    (now : ℤ) (price_usd : ℚ) : MarkerStep :=
  let r := check_breakeven_proximity cfg price_usd
  if r.1 then send_breakeven_alert cache now else ⟨cache, false⟩

/-- The per-row update of `Database.acknowledge_alert` (src/database.py lines
144-158): `SET status='acknowledged', acked_at=CURRENT_TIMESTAMP, notes=?
WHERE id=? AND status='active'`. -/
def acknowledge_row (alert_id : ℕ) (notes : Option String) (now : ℤ)
    (a : Alert) : Alert :=
  if a.id = alert_id ∧ a.status = AlertStatus.active then
    { a with status := AlertStatus.acknowledged, acked_at := some now,
             notes := notes }
  else a

/-- `Database.acknowledge_alert` over the whole table; the Bool is
`cursor.rowcount > 0`. -/
def acknowledge_alert (alerts : List Alert) (alert_id : ℕ)
    (notes : Option String) (now : ℤ) : List Alert × Bool :=
  (alerts.map (acknowledge_row alert_id notes now),
   alerts.any (fun a =>
     decide (a.id = alert_id) && decide (a.status = AlertStatus.active)))

/-- `Database.get_active_alerts` (src/database.py lines 116-131):
`SELECT * FROM alerts WHERE status = 'active'`, optionally filtered by
chat_id. -/
def get_active_alerts (alerts : List Alert) (chat_id : Option String) :
    List Alert :=
  alerts.filter (fun a =>
    decide (a.status = AlertStatus.active) &&
      match chat_id with
      | some c => decide (a.chat_id = c)
      | none => true)

/-! ## Theorems -/

/-- C2: quiet-hours window semantics of `_is_silent_hours`: when
`start > end` the window wraps midnight and the hour is silent iff
`hour ≥ start` or `hour < end`; when `start < end` it is silent iff
`start ≤ hour < end`.  Concretely, with start=23 end=7 the hours 0, 23 and
6 are silent while 12 and 7 are not; with start=8 end=20 the hours 8 and
19 are silent while 20 and 7 are not. -/
theorem C2_quiet_hours_window :
    (∀ s e h : ℕ, s > e →
        is_silent_window s e h = (decide (h ≥ s) || decide (h < e))) ∧
    (∀ s e h : ℕ, s < e →
        is_silent_window s e h = (decide (s ≤ h) && decide (h < e))) ∧
    is_silent_window 23 7 0 = true ∧
    is_silent_window 23 7 23 = true ∧
    is_silent_window 23 7 6 = true ∧
    is_silent_window 23 7 12 = false ∧
    is_silent_window 23 7 7 = false ∧
    is_silent_window 8 20 8 = true ∧
    is_silent_window 8 20 19 = true ∧
    is_silent_window 8 20 20 = false ∧
    is_silent_window 8 20 7 = false := by
  refine ⟨?_, ?_, by decide, by decide, by decide, by decide, by decide,
          by decide, by decide, by decide, by decide⟩
  · intro s e h hse
    unfold is_silent_window
    rw [if_pos hse]
  · intro s e h hse
    unfold is_silent_window
    rw [if_neg (by omega)]

/-- C2 witness: the wrap rule applied at start=23, end=7, hour=0. -/
theorem C2_quiet_hours_window_witness :
    (23 : ℕ) > 7 ∧
      is_silent_window 23 7 0 = (decide ((0 : ℕ) ≥ 23) || decide ((0 : ℕ) < 7)) :=
  ⟨by decide, C2_quiet_hours_window.1 23 7 0 (by decide)⟩

/-- C10: a degenerate window with `silent_start = silent_end` is never
silent: the `start > end` branch is not taken and `start ≤ h < start` is
empty, so with notifications enabled the owner is never suppressed. -/
theorem C10_equal_bounds_never_silent :
    (∀ s h : ℕ, is_silent_window s s h = false) ∧
    (∀ (tzHour : String → Except String ℕ) (u : UserConfig),
        u.notifications_enabled = true → u.silent_start = u.silent_end →
        is_silent_hours tzHour (Except.ok u) = false) := by
  have hwin : ∀ s h : ℕ, is_silent_window s s h = false := by
    intro s h
    unfold is_silent_window
    rw [if_neg (by omega)]
    simp only [Bool.and_eq_false_iff, decide_eq_false_iff_not, not_le, not_lt]
    omega
  refine ⟨hwin, ?_⟩
  intro tzHour u hen heq
  unfold is_silent_hours is_silent_hours_body
  cases htz : tzHour u.timezone with
  | error e => simp [hen, htz]
  | ok h => simp [hen, htz, heq, hwin]

/-- C10 witness: equal bounds 9-9 with notifications enabled and a valid
timezone resolving to hour 12. -/
theorem C10_equal_bounds_never_silent_witness :
    is_silent_hours (fun _ => Except.ok 12)
      (Except.ok ⟨"c", "America/Sao_Paulo", 9, 9, true⟩) = false :=
  C10_equal_bounds_never_silent.2 (fun _ => Except.ok 12)
    ⟨"c", "America/Sao_Paulo", 9, 9, true⟩ rfl rfl

/-- C4: for a ThresholdAlert ('price') rule, the trigger predicate of
`_process_alert` fires with comparison 'above' iff the resolved current
price (usd or brl by the rule's currency) is ≥ the threshold, and with
'below' iff it is ≤ the threshold; at equality it fires for both. -/
theorem C4_threshold_trigger :
    ∀ (a : Alert) (m : PriceData), a.type = AlertType.price →
      ((a.comparison = Comparison.above →
          (should_trigger a m = true ↔ a.value ≤ current_price a m)) ∧
       (a.comparison = Comparison.below →
          (should_trigger a m = true ↔ current_price a m ≤ a.value)) ∧
       (current_price a m = a.value → should_trigger a m = true)) := by
  intro a m hty
  refine ⟨?_, ?_, ?_⟩
  · intro hc
    simp [should_trigger, hty, hc]
  · intro hc
    simp [should_trigger, hty, hc]
  · intro heq
    cases hc : a.comparison <;> simp [should_trigger, hty, hc, heq]

/-- C4 witness: an 'above' USD rule with threshold 115000 against price
116000 fires, and indeed 115000 ≤ 116000. -/
theorem C4_threshold_trigger_witness :
    should_trigger
        ⟨1, "c", AlertType.price, 115000, Currency.usd, Comparison.above,
         AlertStatus.active, 0, none, none, none⟩
        ⟨116000, 600000, 1, 30000000000⟩ = true := by
  refine ((C4_threshold_trigger
      ⟨1, "c", AlertType.price, 115000, Currency.usd, Comparison.above,
       AlertStatus.active, 0, none, none, none⟩
      ⟨116000, 600000, 1, 30000000000⟩ rfl).1 rfl).mpr ?_
  norm_num [current_price]

/-- C5: for a ChangeAlert ('change') rule the trigger predicate fires iff
|change_24h| ≥ threshold, independent of sign: change_24h = -threshold
fires, and change_24h = threshold - ε (0 < ε < 2·threshold) does not. -/
theorem C5_change_trigger :
    ∀ (a : Alert) (m : PriceData), a.type = AlertType.change →
      ((should_trigger a m = true ↔ a.value ≤ |m.change_24h|) ∧
       (m.change_24h = -a.value → should_trigger a m = true) ∧
       (∀ ε : ℚ, 0 < ε → ε < 2 * a.value → m.change_24h = a.value - ε →
          should_trigger a m = false)) := by
  intro a m hty
  refine ⟨by simp [should_trigger, hty], ?_, ?_⟩
  · intro hc
    simp [should_trigger, hty, hc, abs_neg, le_abs_self]
  · intro ε hε0 hε2 hc
    have habs : |a.value - ε| < a.value := abs_lt.mpr ⟨by linarith, by linarith⟩
    simp only [should_trigger, hty, hc, decide_eq_false_iff_not, not_le]
    exact habs

/-- C5 witness: a change rule with threshold 5 fires at change_24h = -5
(via the sign-independence clause, since -5 = -threshold). -/
theorem C5_change_trigger_witness :
    should_trigger
        ⟨2, "c", AlertType.change, 5, Currency.usd, Comparison.above,
         AlertStatus.active, 0, none, none, none⟩
        ⟨116000, 600000, -5, 30000000000⟩ = true :=
  (C5_change_trigger
      ⟨2, "c", AlertType.change, 5, Currency.usd, Comparison.above,
       AlertStatus.active, 0, none, none, none⟩
      ⟨116000, 600000, -5, 30000000000⟩ rfl).2.1 (by norm_num)

/-- Characterisation of the retry-exhaustion check under the shipped
config values (MAX_ALERT_RETRIES=3, ALERT_RETRY_INTERVAL_LONG=900s). -/
theorem retry_suppressed_iff (now : ℤ) (a : Alert) :
    retry_suppressed defaultConfig now a = true ↔
      3 ≤ a.retry_count ∧ ∃ t, a.last_retry_at = some t ∧ now - t < 900 := by
  unfold retry_suppressed
  cases hl : a.last_retry_at with
  | none =>
      by_cases hr : 3 ≤ a.retry_count <;>
        simp [defaultConfig, ge_iff_le, hr, hl]
  | some t =>
      by_cases hr : 3 ≤ a.retry_count <;>
        simp [defaultConfig, ge_iff_le, hr, hl]

/-- C1: with the shipped config, for a rule whose predicate holds and whose
owner is not silent, delivery is suppressed iff retry_count ≥ 3 and
last_retry_at is within the last 15 minutes (900s) of now; a rule with
retry_count = 3 and last_retry_at = now - 600s (10 min) is suppressed,
while the same rule with last_retry_at = now - 1200s (20 min) delivers. -/
theorem C1_retry_suppression :
    (∀ (now : ℤ) (a : Alert) (m : PriceData) (hist : List HistoryRecord),
        should_trigger a m = true →
        ((process_alert defaultConfig false now a m hist).delivered = false ↔
          (3 ≤ a.retry_count ∧ ∃ t, a.last_retry_at = some t ∧ now - t < 900))) ∧
    (∀ (now : ℤ) (a : Alert) (m : PriceData) (hist : List HistoryRecord),
        should_trigger a m = true → a.retry_count = 3 →
        a.last_retry_at = some (now - 600) →
        (process_alert defaultConfig false now a m hist).delivered = false) ∧
    (∀ (now : ℤ) (a : Alert) (m : PriceData) (hist : List HistoryRecord),
        should_trigger a m = true → a.retry_count = 3 →
        a.last_retry_at = some (now - 1200) →
        (process_alert defaultConfig false now a m hist).delivered = true) := by
  have hmain : ∀ (now : ℤ) (a : Alert) (m : PriceData)
      (hist : List HistoryRecord),
      should_trigger a m = true →
      ((process_alert defaultConfig false now a m hist).delivered = false ↔
        (3 ≤ a.retry_count ∧ ∃ t, a.last_retry_at = some t ∧ now - t < 900)) := by
    intro now a m hist htrig
    rw [← retry_suppressed_iff now a]
    by_cases hs : retry_suppressed defaultConfig now a = true
    · simp [process_alert, send_alert, htrig, hs]
    · simp [process_alert, send_alert, htrig, hs]
  refine ⟨hmain, ?_, ?_⟩
  · intro now a m hist htrig hr hl
    rw [hmain now a m hist htrig]
    exact ⟨by omega, now - 600, hl, by omega⟩
  · intro now a m hist htrig hr hl
    cases hb : (process_alert defaultConfig false now a m hist).delivered with
    | true => rfl
    | false =>
        exfalso
        rcases (hmain now a m hist htrig).mp hb with ⟨-, t, hlt, hlt2⟩
        rw [hl] at hlt
        injection hlt with h
        omega

/-- C1 witness: a triggering USD 'above' rule with retry_count = 3 and
last_retry_at ten minutes ago is suppressed at now = 100000. -/
theorem C1_retry_suppression_witness :
    should_trigger
        ⟨1, "c", AlertType.price, 115000, Currency.usd, Comparison.above,
         AlertStatus.active, 3, some 99400, none, none⟩
        ⟨116000, 600000, 1, 30000000000⟩ = true ∧
    (process_alert defaultConfig false 100000
        ⟨1, "c", AlertType.price, 115000, Currency.usd, Comparison.above,
         AlertStatus.active, 3, some 99400, none, none⟩
        ⟨116000, 600000, 1, 30000000000⟩ []).delivered = false := by
  have htrig : should_trigger
      ⟨1, "c", AlertType.price, 115000, Currency.usd, Comparison.above,
       AlertStatus.active, 3, some 99400, none, none⟩
      ⟨116000, 600000, 1, 30000000000⟩ = true := by
    norm_num [should_trigger, current_price]
  exact ⟨htrig, C1_retry_suppression.2.1 100000 _ _ [] htrig rfl rfl⟩

/-- C3: when the owner is silent (quiet hours or notifications disabled),
`_send_alert` returns before any effect: the rule row (retry_count,
last_retry_at) and the history table are unchanged and nothing is
delivered; disabled notifications and an in-window local hour each make
`_is_silent_hours` return true; the spec's example window
start=22, end=6 is silent at hour 23. -/
theorem C3_quiet_hours_frame :
    (∀ (cfg : Config) (now : ℤ) (a : Alert) (m : PriceData)
        (hist : List HistoryRecord),
        process_alert cfg true now a m hist = ⟨a, hist, false⟩) ∧
    (∀ (tzHour : String → Except String ℕ) (u : UserConfig),
        u.notifications_enabled = false →
        is_silent_hours tzHour (Except.ok u) = true) ∧
    (∀ (tzHour : String → Except String ℕ) (u : UserConfig) (h : ℕ),
        tzHour u.timezone = Except.ok h →
        is_silent_window u.silent_start u.silent_end h = true →
        is_silent_hours tzHour (Except.ok u) = true) ∧
    is_silent_window 22 6 23 = true := by
  refine ⟨?_, ?_, ?_, by decide⟩
  · intro cfg now a m hist
    by_cases ht : should_trigger a m = true
    · simp [process_alert, send_alert, ht]
    · simp [process_alert, send_alert, ht]
  · intro tzHour u hen
    simp [is_silent_hours, is_silent_hours_body, hen]
  · intro tzHour u h htz hwin
    cases hne : u.notifications_enabled <;>
      simp [is_silent_hours, is_silent_hours_body, hne, htz, hwin]

/-- C3 witness: owner config {silent_start=22, silent_end=6}, local hour
23 → silent, and a cycle with silent=true leaves rule and history as they
were. -/
theorem C3_quiet_hours_frame_witness :
    is_silent_hours (fun _ => Except.ok 23)
        (Except.ok ⟨"c", "America/Sao_Paulo", 22, 6, true⟩) = true ∧
    process_alert defaultConfig true 0
        ⟨1, "c", AlertType.price, 115000, Currency.usd, Comparison.above,
         AlertStatus.active, 0, none, none, none⟩
        ⟨116000, 600000, 1, 30000000000⟩ [] =
      ⟨⟨1, "c", AlertType.price, 115000, Currency.usd, Comparison.above,
        AlertStatus.active, 0, none, none, none⟩, [], false⟩ :=
  ⟨C3_quiet_hours_frame.2.2.1 (fun _ => Except.ok 23)
      ⟨"c", "America/Sao_Paulo", 22, 6, true⟩ 23 rfl (by decide),
   C3_quiet_hours_frame.1 defaultConfig 0 _ _ []⟩

/-- C9: any error while evaluating the owner's quiet-hours configuration
(store failure, malformed timezone) is caught by `_is_silent_hours` and
treated as not silent, so an otherwise-unsuppressed triggering rule is
delivered (fail-open). -/
theorem C9_silent_hours_fail_open :
    (∀ (tzHour : String → Except String ℕ) (ucfg : Except String UserConfig)
        (e : String),
        is_silent_hours_body tzHour ucfg = Except.error e →
        is_silent_hours tzHour ucfg = false) ∧
    (∀ (tzHour : String → Except String ℕ) (u : UserConfig) (e : String),
        u.notifications_enabled = true → tzHour u.timezone = Except.error e →
        is_silent_hours tzHour (Except.ok u) = false) ∧
    (∀ (tzHour : String → Except String ℕ) (ucfg : Except String UserConfig)
        (e : String) (now : ℤ) (a : Alert) (m : PriceData)
        (hist : List HistoryRecord),
        is_silent_hours_body tzHour ucfg = Except.error e →
        should_trigger a m = true →
        retry_suppressed defaultConfig now a = false →
        (process_alert defaultConfig (is_silent_hours tzHour ucfg) now a m
            hist).delivered = true) := by
  have h1 : ∀ (tzHour : String → Except String ℕ)
      (ucfg : Except String UserConfig) (e : String),
      is_silent_hours_body tzHour ucfg = Except.error e →
      is_silent_hours tzHour ucfg = false := by
    intro tzHour ucfg e h
    unfold is_silent_hours
    rw [h]
  refine ⟨h1, ?_, ?_⟩
  · intro tzHour u e hen htz
    simp [is_silent_hours, is_silent_hours_body, hen, htz]
  · intro tzHour ucfg e now a m hist herr htrig hsup
    rw [h1 tzHour ucfg e herr]
    simp [process_alert, send_alert, htrig, hsup]

/-- C9 witness: a timezone lookup that raises, with notifications enabled;
the otherwise-firing rule (fresh, retry_count = 0) is delivered. -/
theorem C9_silent_hours_fail_open_witness :
    (process_alert defaultConfig
        (is_silent_hours (fun _ => Except.error "UnknownTimeZoneError")
          (Except.ok ⟨"c", "Mars/Phobos", 23, 7, true⟩))
        0
        ⟨1, "c", AlertType.price, 115000, Currency.usd, Comparison.above,
         AlertStatus.active, 0, none, none, none⟩
        ⟨116000, 600000, 1, 30000000000⟩ []).delivered = true :=
  C9_silent_hours_fail_open.2.2 (fun _ => Except.error "UnknownTimeZoneError")
    (Except.ok ⟨"c", "Mars/Phobos", 23, 7, true⟩) "UnknownTimeZoneError" 0
    ⟨1, "c", AlertType.price, 115000, Currency.usd, Comparison.above,
     AlertStatus.active, 0, none, none, none⟩
    ⟨116000, 600000, 1, 30000000000⟩ [] rfl
    (by norm_num [should_trigger, current_price]) rfl

/-- C7: status only ever moves Active → Acknowledged: `acknowledge_alert`
either leaves a row's status alone or turns an active row acknowledged, it
never touches an acknowledged row at all, the table update is the row-wise
map of that rule, the engine's `update_alert_retry` / `_process_alert`
never change status, and `get_active_alerts` only returns rows with
status = 'active', so acknowledged rules are never evaluated again. -/
theorem C7_status_invariant :
    (∀ (i : ℕ) (notes : Option String) (now : ℤ) (a : Alert),
        (acknowledge_row i notes now a).status = a.status ∨
          (a.status = AlertStatus.active ∧
            (acknowledge_row i notes now a).status = AlertStatus.acknowledged)) ∧
    (∀ (i : ℕ) (notes : Option String) (now : ℤ) (a : Alert),
        a.status = AlertStatus.acknowledged →
        acknowledge_row i notes now a = a) ∧
    (∀ (alerts : List Alert) (i : ℕ) (notes : Option String) (now : ℤ),
        (acknowledge_alert alerts i notes now).1 =
          alerts.map (acknowledge_row i notes now)) ∧
    (∀ (now : ℤ) (a : Alert), (update_alert_retry now a).status = a.status) ∧
    (∀ (cfg : Config) (silent : Bool) (now : ℤ) (a : Alert) (m : PriceData)
        (hist : List HistoryRecord),
        (process_alert cfg silent now a m hist).alert.status = a.status) ∧
    (∀ (alerts : List Alert) (c : Option String) (a : Alert),
        a ∈ get_active_alerts alerts c → a.status = AlertStatus.active) := by
  refine ⟨?_, ?_, ?_, ?_, ?_, ?_⟩
  · intro i notes now a
    unfold acknowledge_row
    by_cases h : a.id = i ∧ a.status = AlertStatus.active
    · rw [if_pos h]
      exact Or.inr ⟨h.2, rfl⟩
    · rw [if_neg h]
      exact Or.inl rfl
  · intro i notes now a hst
    unfold acknowledge_row
    rw [if_neg]
    rintro ⟨-, h2⟩
    rw [hst] at h2
    exact AlertStatus.noConfusion h2
  · intro alerts i notes now
    rfl
  · intro now a
    rfl
  · intro cfg silent now a m hist
    by_cases ht : should_trigger a m = true <;>
      by_cases hsil : silent = true <;>
        by_cases hsup : retry_suppressed cfg now a = true <;>
          simp [process_alert, send_alert, update_alert_retry, ht, hsil, hsup]
  · intro alerts c a ha
    have hp := (List.mem_filter.mp ha).2
    exact of_decide_eq_true ((Bool.and_eq_true _ _).mp hp).1

/-- C7 witness: an already-acknowledged row is untouched by a matching
acknowledge call. -/
theorem C7_status_invariant_witness :
    acknowledge_row 1 (some "done") 50
        ⟨1, "c", AlertType.price, 115000, Currency.usd, Comparison.above,
         AlertStatus.acknowledged, 2, some 10, some 20, none⟩ =
      ⟨1, "c", AlertType.price, 115000, Currency.usd, Comparison.above,
       AlertStatus.acknowledged, 2, some 10, some 20, none⟩ :=
  C7_status_invariant.2.1 1 (some "done") 50
    ⟨1, "c", AlertType.price, 115000, Currency.usd, Comparison.above,
     AlertStatus.acknowledged, 2, some 10, some 20, none⟩ rfl

/-- C8: `check_breakeven_proximity` returns
diff_percent = ((price - breakeven)/breakeven)·100 with the shipped
breakeven 115318.90, is_near iff |diff_percent| ≤ 2, and at price 116000
it is near with diff_percent ≈ +0.59 (between 0.59 and 0.60). -/
theorem C8_breakeven_proximity :
    (∀ p : ℚ, (check_breakeven_proximity defaultConfig p).2 =
        ((p - 11531890 / 100) / (11531890 / 100)) * 100) ∧
    (∀ p : ℚ, ((check_breakeven_proximity defaultConfig p).1 = true ↔
        |((p - 11531890 / 100) / (11531890 / 100)) * 100| ≤ 2)) ∧
    (check_breakeven_proximity defaultConfig 116000).1 = true ∧
    (59 / 100 : ℚ) ≤ (check_breakeven_proximity defaultConfig 116000).2 ∧
    (check_breakeven_proximity defaultConfig 116000).2 < 60 / 100 := by
  have hdiff : ∀ p : ℚ, (check_breakeven_proximity defaultConfig p).2 =
      ((p - 11531890 / 100) / (11531890 / 100)) * 100 := fun _ => rfl
  have hiff : ∀ p : ℚ, ((check_breakeven_proximity defaultConfig p).1 = true ↔
      |((p - 11531890 / 100) / (11531890 / 100)) * 100| ≤ 2) := by
    intro p
    simp only [check_breakeven_proximity, defaultConfig, decide_eq_true_eq]
    norm_num
  refine ⟨hdiff, hiff, ?_, ?_, ?_⟩
  · rw [hiff 116000, abs_le]
    constructor <;> norm_num
  · rw [hdiff 116000]
    norm_num
  · rw [hdiff 116000]
    norm_num

/-- C6: the breakeven dedup marker does NOT last ~1 hour.
`_send_breakeven_alert` reads the marker through `get_cache` without a
`ttl_minutes` argument, so the default of 5 minutes applies, although the
code's own comment says the marker is cached for 1 hour.  Starting from an
empty cache at t=0 with the condition true (price 116000): the first call
delivers; a second call 30 minutes later — well inside the claimed ~1 hour
window — delivers AGAIN; calls 4 minutes and 5 minutes + 1s after the first
show the marker expiring at the 5-minute mark. -/
theorem C6_breakeven_marker_ttl :
    (check_breakeven_condition defaultConfig [] 0 116000).delivered = true ∧
    (check_breakeven_condition defaultConfig
        (check_breakeven_condition defaultConfig [] 0 116000).cache
        1800 116000).delivered = true ∧
    (check_breakeven_condition defaultConfig
        (check_breakeven_condition defaultConfig [] 0 116000).cache
        240 116000).delivered = false ∧
    (check_breakeven_condition defaultConfig
        (check_breakeven_condition defaultConfig [] 0 116000).cache
        301 116000).delivered = true := by
  have hnear : (check_breakeven_proximity defaultConfig 116000).1 = true := by
    simp only [check_breakeven_proximity, defaultConfig, decide_eq_true_eq]
    rw [show ((2 : ℚ) / 100 * 100) = 2 by norm_num, abs_le]
    constructor <;> norm_num
  have hstep1 : check_breakeven_condition defaultConfig [] 0 116000 =
      ⟨[⟨"breakeven_alert_sent", "1", 0⟩], true⟩ := by
    simp [check_breakeven_condition, hnear, send_breakeven_alert, get_cache,
          set_cache]
  rw [hstep1]
  refine ⟨rfl, ?_, ?_, ?_⟩ <;>
    simp [check_breakeven_condition, hnear, send_breakeven_alert, get_cache,
          set_cache, List.find?]

end BtcBot
